import Mathlib

/-!
Verification of the LoRaWAN geofencing backend's codec and containment pipeline.

The Python source is shallowly embedded: machine integers become `Nat`/`Int`
with explicit two's-complement conversion, Python floats become exact
rationals (`ℚ`), `struct` frames become lists of typed atoms, and fallible
code returns `Option`/`Except`.
-/

unseal Rat.add Rat.mul Rat.sub Rat.inv Rat.ofScientific

deriving instance DecidableEq for Except

namespace LoraGeo

/-! ## Numeric helpers -/

/-- Two's-complement reading of a `w`-bit unsigned value `v` as a signed integer. -/
def toSigned (w v : ℕ) : ℤ :=
  if v < 2 ^ (w - 1) then (v : ℤ) else (v : ℤ) - 2 ^ w

/-- Little-endian recomposition of a byte list into a natural number. -/
def leNat (bs : List ℕ) : ℕ :=
  bs.foldr (fun b acc => b + 256 * acc) 0

/-- Read one byte of a frame (frames are total functions via `getD`, out-of-range reads give 0). -/
def readU8 (f : List ℕ) (i : ℕ) : ℕ := f.getD i 0

/-- Little-endian u16 at offset `i`. -/
def readU16le (f : List ℕ) (i : ℕ) : ℕ := readU8 f i + 256 * readU8 f (i + 1)

/-- Little-endian u32 at offset `i`. -/
def readU32le (f : List ℕ) (i : ℕ) : ℕ :=
  readU8 f i + 256 * readU8 f (i + 1) + 65536 * readU8 f (i + 2) + 16777216 * readU8 f (i + 3)

/-- Little-endian signed i32 at offset `i`. -/
def readI32le (f : List ℕ) (i : ℕ) : ℤ := toSigned 32 (readU32le f i)

/-- Little-endian signed i16 at offset `i`. -/
def readI16le (f : List ℕ) (i : ℕ) : ℤ := toSigned 16 (readU16le f i)

/-- Python 3 `round`: round to nearest integer, ties to even. -/
def pyRound (x : ℚ) : ℤ :=
  let f := ⌊x⌋
  let r := x - f
  if r < 1 / 2 then f
  else if 1 / 2 < r then f + 1
  else if f % 2 = 0 then f else f + 1

/-- Python `int()` on a numeric value: truncation toward zero. -/
def pyInt (x : ℚ) : ℤ := if 0 ≤ x then ⌊x⌋ else ⌈x⌉

/-- Clamp an integer into the i16 range used by the compressor:
`max(-32767, min(32767, v))`. -/
def clampI16 (v : ℤ) : ℤ := max (-32767) (min 32767 v)

/-! ## The GPS uplink decoder (`app/services/gps_decoder.py`) -/

/-- Alert severity names of the decoder's `alert_levels` mapping; values outside
0..4 map to `unknown`. -/
inductive AlertLevel where
  | safe
  | warning
  | caution
  | danger
  | emergency
  | unknown
  deriving DecidableEq

/-- Embeds `alert_levels.get(alert, "UNKNOWN")` of the source. -/
def alertLevelOf (b : ℕ) : AlertLevel :=
  match b with
  | 0 => .safe
  | 1 => .warning
  | 2 => .caution
  | 3 => .danger
  | 4 => .emergency
  | _ => .unknown

/-- The decoded position report returned by `decode_gps_payload`. -/
structure GpsReport where
  latitude : ℚ
  longitude : ℚ
  altitude : ℤ
  satellites : ℕ
  battery : ℕ
  hdop : ℚ
  alert : AlertLevel
  gps_valid : Bool
  inside_geofence : Bool
  deriving DecidableEq

/-- Source `decode_gps_payload` of `app/services/gps_decoder.py`: the 30-hex-character /
15-byte guard, then `struct.unpack('<iihBBBBB', payload_bytes)` (note the
signed `h` for altitude), coordinates divided by 1e7, hdop by 10, and flag
bits 0 and 1. Any frame whose length differs from 15 yields `none`. -/
def decode_gps_payload (frame : List ℕ) : Option GpsReport :=
  if frame.length ≠ 15 then none
  else
    some
      { latitude := (toSigned 32 (leNat (frame.take 4)) : ℚ) / 10000000
        longitude := (toSigned 32 (leNat ((frame.drop 4).take 4)) : ℚ) / 10000000
        altitude := toSigned 16 (leNat ((frame.drop 8).take 2))
        satellites := frame.getD 10 0
        battery := frame.getD 11 0
        hdop := (frame.getD 12 0 : ℚ) / 10
        alert := alertLevelOf (frame.getD 13 0)
        gps_valid := Nat.testBit (frame.getD 14 0) 0
        inside_geofence := Nat.testBit (frame.getD 14 0) 1 }

/-- The position report described by the specification's fixed 15-byte layout,
written from the spec's words (with altitude read as a signed little-endian
i16, which is what the source's `<iihBBBBB` format does): fields in the order
lat, lng, altitude, satellites, battery, hdop tenths, alert level, status
flags, with the stated scalings and flag bits. -/
def gpsReportSpec (frame : List ℕ) : GpsReport :=
  { latitude := (readI32le frame 0 : ℚ) / 10000000
    longitude := (readI32le frame 4 : ℚ) / 10000000
    altitude := readI16le frame 8
    satellites := readU8 frame 10
    battery := readU8 frame 11
    hdop := (readU8 frame 12 : ℚ) / 10
    alert := alertLevelOf (readU8 frame 13)
    gps_valid := Nat.testBit (readU8 frame 14) 0
    inside_geofence := Nat.testBit (readU8 frame 14) 1 }

/-! ## Binary frames as typed atoms

Downlink frames are modelled as lists of typed atoms. Each atom records the
value the Python code passes to `struct.pack` together with its wire width;
the 4-byte IEEE-754 serialization of `f32` fields is abstracted to the exact
rational that the code packs. -/

/-- One packed field of a downlink frame. -/
inductive Atom where
  | u8 (b : ℕ)
  | u16 (v : ℕ)
  | i16 (v : ℤ)
  | i32 (v : ℤ)
  | f32 (x : ℚ)
  deriving DecidableEq

/-- Wire width in bytes of one atom. -/
def Atom.size : Atom → ℕ
  | .u8 _ => 1
  | .u16 _ => 2
  | .i16 _ => 2
  | .i32 _ => 4
  | .f32 _ => 4

/-- Byte length of a frame (the Python `len(payload)`). -/
def frameSize (f : List Atom) : ℕ := (f.map Atom.size).sum

/-! ## The AU915 polygon compressor (`app/api/geofence_polygon_compressor.py`) -/

/-- A polygon vertex as handed to the compressor (`{'lat': ..., 'lng': ...}`). -/
structure Coord where
  lat : ℚ
  lng : ℚ
  deriving DecidableEq

/-- Table `AU915_PAYLOAD_LIMITS`: the spreading-factor to max-payload table. The
Python dict is embedded as a lookup returning `none` for identifiers not in
the table. -/
def AU915_PAYLOAD_LIMITS (sf : String) : Option ℕ :=
  match sf with
  | "SF7" => some 222
  | "SF8" => some 222
  | "SF9" => some 115
  | "SF10" => some 51
  | "SF11" => some 51
  | "SF12" => some 51
  | _ => none

/-- The budget lookup as both call sites actually perform it:
`AU915_PAYLOAD_LIMITS.get(spreading_factor, 51)` — a silent default of 51
(`DEFAULT_MAX_PAYLOAD = AU915_PAYLOAD_LIMITS['SF10']`) for unknown
identifiers. -/
def maxPayloadFor (sf : String) : ℕ := (AU915_PAYLOAD_LIMITS sf).getD 51

/-- Constant `self.lat_scale_factor`: meters per degree of latitude. -/
def lat_scale_factor : ℚ := 111000

/-- Constant `self.lng_scale_factor`: meters per degree of longitude (a constant tuned
for Chile, not a `cos(lat)` correction). -/
def lng_scale_factor : ℚ := 93000

/-- Source `validate_coordinates_for_chile` for a single vertex: the Chile bounding
box `-56.5 ≤ lat ≤ -17.5` and `-75.5 ≤ lng ≤ -66.5`. -/
def chileOk (c : Coord) : Bool :=
  decide ((-56.5 : ℚ) ≤ c.lat) && decide (c.lat ≤ (-17.5 : ℚ)) &&
  decide ((-75.5 : ℚ) ≤ c.lng) && decide (c.lng ≤ (-66.5 : ℚ))

/-- Source `calculate_reference_point`: the arithmetic-mean centroid of a vertex
list. (Python raises `ZeroDivisionError` on an empty list; the compressor
below only calls this with a nonempty prefix.) -/
def calculate_reference_point (cs : List Coord) : Coord :=
  { lat := (cs.map Coord.lat).sum / cs.length
    lng := (cs.map Coord.lng).sum / cs.length }

/-- The two little-endian i16 offset atoms the compressor emits for one
vertex: the lat/lng delta to the reference point projected to meters with the
fixed scale factors, rounded (`int(round(...))`, Python half-to-even) and
clamped to `[-32767, 32767]`. -/
def offsetAtoms (ref c : Coord) : List Atom :=
  [ .i16 (clampI16 (pyRound ((c.lat - ref.lat) * lat_scale_factor)))
  , .i16 (clampI16 (pyRound ((c.lng - ref.lng) * lng_scale_factor))) ]

/-- Source `compress_polygon_coordinates` of `AU915CoordinateCompressor`. Faithful to
the source's control flow: Chile validation first (`ValueError` otherwise);
`max_points_possible = (max_payload - 9 - len(group_id)) // 4` computed with
Python floor division over possibly-negative integers;
`num_points = min(len(coordinates), max_points_possible, 10)`; when
`num_points ≤ 0` the Python code raises (`ZeroDivisionError` from the empty
centroid or `ValueError` from `bytearray.append` of a negative), embedded as
an error; otherwise the frame `u8 2 | f32 ref_lat | f32 ref_lng |
u8 num_points | offsets | ascii tag` where the tag is appended only when the
group id is nonempty and budget space remains (`encode('ascii')` raising on a
non-ASCII character in the appended slice). The group id is carried as its
list of character codes. -/
def compress_polygon_coordinates (maxPayload : ℕ) (coords : List Coord)
    (groupId : List ℕ) : Except String (List Atom) :=
  if ¬ coords.all chileOk then .error "Coordenadas fuera del rango valido para Chile"
  else
    let maxPointsPossible : ℤ := Int.fdiv ((maxPayload : ℤ) - 9 - groupId.length) 4
    let numPointsZ : ℤ := min (min (coords.length : ℤ) maxPointsPossible) 10
    if numPointsZ ≤ 0 then .error "num_points no positivo"
    else
      let n : ℕ := numPointsZ.toNat
      let ref := calculate_reference_point (coords.take n)
      let body : List Atom :=
        [Atom.u8 2, Atom.f32 ref.lat, Atom.f32 ref.lng, Atom.u8 n]
          ++ (coords.take n).flatMap (offsetAtoms ref)
      let avail : ℤ := (maxPayload : ℤ) - frameSize body
      if groupId = [] ∨ avail ≤ 0 then .ok body
      else
        let tag := groupId.take avail.toNat
        if tag.all (· < 128) then .ok (body ++ tag.map Atom.u8)
        else .error "ascii"

/-- Source `create_compressed_polygon_payload`: resolves the budget with the silent
`.get(spreading_factor, DEFAULT_MAX_PAYLOAD)` default and compresses. -/
def create_compressed_polygon_payload (coords : List Coord) (groupId : List ℕ)
    (sf : String) : Except String (List Atom) :=
  compress_polygon_coordinates (maxPayloadFor sf) coords groupId

/-- The compressed frame exactly as claim C2 words it: `count` admitted by
`min(input_count, floor((max_bytes - 9 - |group_tag|) / 4), 10)`, the
reference point the arithmetic-mean centroid of the first `count` vertices,
the header `u8 type=2 | f32 ref_lat | f32 ref_lng | u8 count`, per vertex two
little-endian i16 offsets `round(delta * 111000)` / `round(delta * 93000)`
clamped to `[-32767, 32767]`, then the tag truncated to the remaining budget
space. -/
def compressedFrameSpec (maxBytes : ℕ) (coords : List Coord)
    (groupTag : List ℕ) : List Atom :=
  let count : ℕ := min (min coords.length ((maxBytes - 9 - groupTag.length) / 4)) 10
  let ref := calculate_reference_point (coords.take count)
  let body : List Atom :=
    [Atom.u8 2, Atom.f32 ref.lat, Atom.f32 ref.lng, Atom.u8 count]
      ++ (coords.take count).flatMap (offsetAtoms ref)
  body ++ (groupTag.take (maxBytes - frameSize body)).map Atom.u8

/-! ## The geofence downlink encoder (`app/api/integrations.py`,
`send_geofence_downlink`) -/

/-- The geofence argument of `send_geofence_downlink`: a circle dict, a
polygon vertex list, or any other `geofence_type` string (for which the
Python function builds an empty payload). -/
inductive GeofenceInput where
  | circle (lat lng : ℚ) (radius : ℤ)
  | polygon (coords : List Coord)
  | other
  deriving DecidableEq

/-- The ASCII tag bytes appended by the circle and direct-polygon branches:
`group_id[:15].encode('ascii')`, erroring on a non-ASCII character. -/
def tagBytes15 (groupId : List ℕ) : Except String (List Atom) :=
  if (groupId.take 15).all (· < 128) then .ok ((groupId.take 15).map Atom.u8)
  else .error "ascii"

/-- Payload construction of `send_geofence_downlink` before the final size
check, by branch: circle validation and `u8 0 | f32 lat | f32 lng | u16
radius` plus the conditionally-appended tag; polygon with fewer than 3
vertices rejected; the direct form `u8 1 | u8 count | count x (f32, f32)`
plus tag when `original_size = 2 + 8n + |group_id|` fits the budget and
`n ≤ 6`, otherwise `create_compressed_polygon_payload`; any other type gives
the untouched empty `bytearray()`. -/
def buildGeofencePayload (maxPayload : ℕ) (gin : GeofenceInput)
    (groupId : List ℕ) (sf : String) : Except String (List Atom) :=
  match gin with
  | .circle lat lng radius =>
      if ¬((-90 : ℚ) ≤ lat ∧ lat ≤ 90 ∧ (-180 : ℚ) ≤ lng ∧ lng ≤ 180) then
        .error "Coordenadas invalidas"
      else if ¬(10 ≤ radius ∧ radius ≤ 65535) then .error "Radio invalido"
      else
        let p : List Atom := [Atom.u8 0, Atom.f32 lat, Atom.f32 lng, Atom.u16 radius.toNat]
        if groupId ≠ [] ∧ frameSize p + groupId.length ≤ maxPayload then
          (tagBytes15 groupId).map (fun t => p ++ t)
        else .ok p
  | .polygon coords =>
      if coords.length < 3 then .error "Poligono debe tener al menos 3 puntos"
      else
        let originalSize := 2 + coords.length * 8 + groupId.length
        if originalSize ≤ maxPayload ∧ coords.length ≤ 6 then
          let n := min coords.length 6
          let p : List Atom :=
            [Atom.u8 1, Atom.u8 n]
              ++ (coords.take n).flatMap (fun c => [Atom.f32 c.lat, Atom.f32 c.lng])
          if groupId ≠ [] ∧ frameSize p + groupId.length ≤ maxPayload then
            (tagBytes15 groupId).map (fun t => p ++ t)
          else .ok p
        else
          create_compressed_polygon_payload coords groupId sf
  | .other => .ok []

/-- The final size check of `send_geofence_downlink`:
`if len(payload) > max_payload: return False`, otherwise the frame is handed
to ChirpStack. Any exception path (an `Except.error`) also returns `False`,
delivering nothing. -/
def finalSizeCheck (maxPayload : ℕ) (r : Except String (List Atom)) :
    Option (List Atom) :=
  match r with
  | .error _ => none
  | .ok p => if frameSize p > maxPayload then none else some p

/-- Source `send_geofence_downlink`: budget `AU915_PAYLOAD_LIMITS.get(sf, 51)`,
payload built per geofence type, final size check; `some frame` is the frame
handed to the delivery client on fPort 10, `none` means the function returned
`False` without delivering a frame. -/
def send_geofence_downlink (gin : GeofenceInput) (groupId : List ℕ)
    (sf : String) : Option (List Atom) :=
  finalSizeCheck (maxPayloadFor sf) (buildGeofencePayload (maxPayloadFor sf) gin groupId sf)

/-! ## The command encoder (`app/services/downlink_service.py`,
`send_geofence_to_device`) -/

/-- A `struct.pack` format field (subset used by the source): `B`, `i`, `h`,
`H`, `f`. -/
inductive PackField where
  | fB
  | fi
  | fh
  | fH
  | ff
  deriving DecidableEq

/-- A value passed to `struct.pack`. -/
inductive PackVal where
  | int (v : ℤ)
  | real (x : ℚ)
  deriving DecidableEq

/-- Packing one value under one format field, with Python's range and type
errors. -/
def packField : PackField → PackVal → Except String (List Atom)
  | .fB, .int v => if 0 ≤ v ∧ v < 256 then .ok [.u8 v.toNat] else .error "B fuera de rango"
  | .fi, .int v =>
      if -(2 ^ 31) ≤ v ∧ v < 2 ^ 31 then .ok [.i32 v] else .error "i fuera de rango"
  | .fh, .int v =>
      if -(2 ^ 15) ≤ v ∧ v < 2 ^ 15 then .ok [.i16 v] else .error "h fuera de rango"
  | .fH, .int v =>
      if 0 ≤ v ∧ v < 2 ^ 16 then .ok [.u16 v.toNat] else .error "H fuera de rango"
  | .ff, .real x => .ok [.f32 x]
  | _, _ => .error "required argument is not the right type"

/-- Python `struct.pack`: raises `struct.error` when the number of values does not
match the number of format fields, otherwise packs field by field. -/
def structPack (fmt : List PackField) (vals : List PackVal) :
    Except String (List Atom) :=
  if fmt.length ≠ vals.length then
    .error "pack expected a different number of items"
  else
    ((fmt.zip vals).mapM (fun p => packField p.1 p.2)).map List.flatten

/-- Source `send_geofence_to_device` of `app/services/downlink_service.py`:
`lat_int = int(lat * 10000000)`, `lng_int = int(lng * 10000000)`, then
`struct.pack('<BiihH', 0x02, lat_int, lng_int, radius)` — five format fields
but only four values — inside a `try` whose handler returns `False`. `some`
would be the frame handed to ChirpStack on fPort 2; `none` is the `False`
path with no frame delivered. -/
def send_geofence_to_device (lat lng : ℚ) (radius : ℤ) : Option (List Atom) :=
  let latInt := pyInt (lat * 10000000)
  let lngInt := pyInt (lng * 10000000)
  match structPack [.fB, .fi, .fi, .fh, .fH]
      [.int 2, .int latInt, .int lngInt, .int radius] with
  | .error _ => none
  | .ok p => some p

/-! ## Position storage and containment (`app/services/device_service.py`) -/

/-- Values of the `geofence_type` column. -/
inductive GeofKind where
  | circle
  | polygon
  | otherKind
  deriving DecidableEq

/-- A geofence row as consumed by `add_device_position` /
`check_point_in_geofence`. -/
structure Geofence where
  kind : GeofKind
  radius : Option ℚ
  active : Bool
  deriving DecidableEq

/-- A device group with its geofence rows in database order; the per-group
query `select(Geofence).where(group_id, active == True).limit(1)` returns the
first active row. -/
structure Group where
  geofences : List Geofence

/-- Source `check_point_in_geofence`: a `ST_DWithin` query for circles with a
radius, a `ST_Contains` query for polygons, `False` when no query applies;
the PostGIS evaluation is external and is abstracted as the oracle
`spatial` (returning the query's scalar, `none` for a NULL row), with the
source's final `is_inside or False`. -/
def check_point_in_geofence (spatial : Geofence → Option Bool) (g : Geofence) :
    Bool :=
  match g.kind with
  | .circle => if g.radius.isSome then (spatial g).getD false else false
  | .polygon => (spatial g).getD false
  | .otherKind => false

/-- The geofence selected by `add_device_position`'s loop: iterate the
device's groups in order, take the first group whose active-geofence query
returns a row, and `break`; groups without an active geofence are skipped. -/
def firstActiveGeofence (groups : List Group) : Option Geofence :=
  (groups.filterMap (fun gr => gr.geofences.find? (·.active))).head?

/-- The `inside_geofence` value stored by `add_device_position`: starts as
`None`; only when `gps_valid and lat != 0.0 and lng != 0.0` does the loop
run, setting it to the containment result for the first active geofence
found; otherwise (invalid GPS, an exactly-zero coordinate, no groups, or no
active geofence) it stays `None`. -/
def add_device_position (spatial : Geofence → Option Bool) (gps_valid : Bool)
    (lat lng : ℚ) (groups : List Group) : Option Bool :=
  if gps_valid = true ∧ lat ≠ 0 ∧ lng ≠ 0 then
    (firstActiveGeofence groups).map (check_point_in_geofence spatial)
  else
    none

/-! ## The GPS uplink processor (`app/api/integrations.py`,
`process_gps_uplink`) -/

/-- The observable effects of one `process_gps_uplink` call: whether the
frame passed the 12-byte guard, whether the out-of-geofence warning was
logged (`alert_level >= 3`, the device-reported byte at offset 10), and the
downlink command frames queued — the source queues none (position storage and
alert sending are `TODO` comments). -/
structure GpsUplinkEffect where
  processed : Bool
  outOfFenceWarning : Bool
  alertDownlinks : List (List Atom)
  deriving DecidableEq

/-- Source `process_gps_uplink`: drops frames shorter than 12 bytes, decodes and
logs the position, warns when the device-reported `alert_level` byte is at
least 3, and queues no downlink (`# TODO: Enviar notificación o activar
alerta`). -/
def process_gps_uplink (data : List ℕ) : GpsUplinkEffect :=
  if data.length < 12 then
    { processed := false, outOfFenceWarning := false, alertDownlinks := [] }
  else
    { processed := true
      outOfFenceWarning := 3 ≤ data.getD 10 0
      alertDownlinks := [] }

/-- Total number of alert commands queued while processing a sequence of
uplink frames for one device. -/
def alertCommandsEmitted (frames : List (List ℕ)) : ℕ :=
  (frames.map (fun f => (process_gps_uplink f).alertDownlinks.length)).sum

/-! ## Theorems -/

theorem process_gps_uplink_no_downlinks (data : List ℕ) :
    (process_gps_uplink data).alertDownlinks = [] := by
  unfold process_gps_uplink
  split <;> rfl

/-- C1 (amended): every 15-byte frame decodes to the report with fields read
little-endian in the order i32 lat, i32 lng, then a SIGNED i16 altitude
(the source's `<iihBBBBB` format uses `h`, not `H`), u8 satellites, u8
battery, u8 hdop tenths, u8 alert level, u8 status flags, with
latitude = lat/1e7, longitude = lng/1e7, hdop = tenths/10, gps_valid = bit 0
and inside-geofence = bit 1 of the flags; every shorter frame decodes to
`none` with no partial report. -/
theorem C1_decode_fixed_layout :
    ∀ frame : List ℕ,
      (frame.length = 15 → decode_gps_payload frame = some (gpsReportSpec frame)) ∧
      (frame.length < 15 → decode_gps_payload frame = none) := by
  intro frame
  constructor
  · intro h15
    match frame, h15 with
    | [b0, b1, b2, b3, b4, b5, b6, b7, b8, b9, b10, b11, b12, b13, b14], _ =>
      have e0 : leNat [b0, b1, b2, b3] = b0 + 256 * b1 + 65536 * b2 + 16777216 * b3 := by
        simp [leNat]; try omega
      have e4 : leNat [b4, b5, b6, b7] = b4 + 256 * b5 + 65536 * b6 + 16777216 * b7 := by
        simp [leNat]; try omega
      have e8 : leNat [b8, b9] = b8 + 256 * b9 := by
        simp [leNat]; try omega
      simp [decode_gps_payload, gpsReportSpec, readI32le, readI16le, readU32le,
        readU16le, readU8, List.getD, e0, e4, e8]
  · intro hlt
    have h : frame.length ≠ 15 := by omega
    simp [decode_gps_payload, h]

theorem C1_witness :
    decode_gps_payload [24, 5, 247, 235, 129, 193, 233, 213, 244, 1, 7, 85, 9, 1, 3]
        = some (gpsReportSpec [24, 5, 247, 235, 129, 193, 233, 213, 244, 1, 7, 85, 9, 1, 3]) ∧
      decode_gps_payload [1, 2, 3] = none :=
  ⟨(C1_decode_fixed_layout [24, 5, 247, 235, 129, 193, 233, 213, 244, 1, 7, 85, 9, 1, 3]).1
      (by decide),
    (C1_decode_fixed_layout [1, 2, 3]).2 (by decide)⟩

/-- C1 counterexample: the claim reads altitude as a u16, but on a frame
whose altitude bytes are `FF FF` the decoder (struct format `h`) yields the
signed value -1, not 65535. -/
theorem C1_altitude_signed_counterexample :
    (decode_gps_payload [0, 0, 0, 0, 0, 0, 0, 0, 255, 255, 7, 50, 9, 1, 3]).map
        GpsReport.altitude = some (-1) ∧
      readU16le [0, 0, 0, 0, 0, 0, 0, 0, 255, 255, 7, 50, 9, 1, 3] 8 = 65535 ∧
      ((-1 : ℤ) ≠ 65535) := by
  decide

/-- C5: the uplink processor emits no alert (buzzer) command at all — alert
sending is an unimplemented `TODO` in the source — so the containment
sequence Inside, Inside, Outside, Outside, Inside, Outside produces 0 alert
commands, not the 2 the claim requires; the six frames below are the GPS
uplinks of such a sequence. -/
theorem C5_no_alert_commands_emitted :
    alertCommandsEmitted
        [[24, 5, 247, 235, 129, 193, 233, 213, 244, 1, 7, 85, 9, 0, 3],
         [28, 5, 247, 235, 133, 193, 233, 213, 244, 1, 7, 85, 9, 0, 3],
         [224, 134, 250, 235, 129, 193, 233, 213, 244, 1, 7, 85, 9, 3, 1],
         [228, 134, 250, 235, 133, 193, 233, 213, 244, 1, 7, 85, 9, 3, 1],
         [24, 5, 247, 235, 129, 193, 233, 213, 244, 1, 7, 85, 9, 0, 3],
         [224, 134, 250, 235, 129, 193, 233, 213, 244, 1, 7, 85, 9, 3, 1]] = 0 ∧
      ∀ frames : List (List ℕ), alertCommandsEmitted frames = 0 := by
  constructor
  · decide
  · intro frames
    induction frames with
    | nil => rfl
    | cons f fs ih =>
        unfold alertCommandsEmitted at ih ⊢
        simp [process_gps_uplink_no_downlinks, ih]

/-- C6: `send_geofence_to_device` never hands any frame to the delivery
client: its `struct.pack('<BiihH', ...)` passes four values for five format
fields, so the pack raises and the exception handler returns `False`. The
first conjunct evaluates the failing input of the claim (lat -33.4489,
lng -70.6693, radius 100). -/
theorem C6_command_encoder_never_delivers :
    send_geofence_to_device (-334489 / 10000) (-706693 / 10000) 100 = none ∧
      ∀ (lat lng : ℚ) (radius : ℤ), send_geofence_to_device lat lng radius = none := by
  refine ⟨rfl, ?_⟩
  intro lat lng radius
  rfl

/-- C7 (amended): the stored classification is the unknown value exactly
under the source's guard `gps_valid and lat != 0.0 and lng != 0.0` — only an
exactly-zero coordinate (or invalid GPS) is treated as no-fix; a nonzero
coordinate, however close to (0, 0), is still evaluated against the first
active geofence even though the claim asks for a 0.001-degree tolerance. -/
theorem C7_exact_zero_treated_as_no_fix :
    ∀ (spatial : Geofence → Option Bool) (v : Bool) (lat lng : ℚ) (groups : List Group),
      ((v = false ∨ lat = 0 ∨ lng = 0) →
        add_device_position spatial v lat lng groups = none) ∧
      (v = true → lat ≠ 0 → lng ≠ 0 →
        add_device_position spatial v lat lng groups =
          (firstActiveGeofence groups).map (check_point_in_geofence spatial)) := by
  intro spatial v lat lng groups
  constructor
  · intro h
    unfold add_device_position
    rw [if_neg]
    rintro ⟨hv, hlat, hlng⟩
    rcases h with h | h | h
    · rw [h] at hv; exact Bool.false_ne_true hv
    · exact hlat h
    · exact hlng h
  · intro hv hlat hlng
    unfold add_device_position
    rw [if_pos ⟨hv, hlat, hlng⟩]

theorem C7_witness :
    (false = false ∨ (5 : ℚ) = 0 ∨ (5 : ℚ) = 0) ∧
      add_device_position (fun _ => some true) false 5 5 [] = none :=
  ⟨Or.inl rfl,
    (C7_exact_zero_treated_as_no_fix (fun _ => some true) false 5 5 []).1 (Or.inl rfl)⟩

/-- C7 counterexample: the coordinate (0.0005, 0.0005) is within 0.001
degrees of (0, 0) on both axes and `gps_valid` is set, yet the source
evaluates containment and stores a classification (`some true` here), where
the claim requires no containment evaluation and no stored classification. -/
theorem C7_tolerance_counterexample :
    ((1 / 2000 : ℚ) ≤ 1 / 1000 ∧ (1 / 2000 : ℚ) ≠ 0) ∧
      add_device_position (fun _ => some true) true (1 / 2000) (1 / 2000)
          [⟨[{ kind := .circle, radius := some 100, active := true }]⟩] = some true := by
  constructor
  · constructor <;> norm_num
  · unfold add_device_position
    rw [if_pos ⟨rfl, by norm_num, by norm_num⟩]
    rfl

/-- C10: for a stored position with valid GPS and nonzero coordinates the
classification is computed from at most one geofence — the first active
geofence found iterating the device's groups in order (groups without an
active geofence are skipped, groups after the first hit are never
consulted) — and it is the unknown value `none`, never `some false`, when no
group has an active geofence or GPS is invalid or a coordinate is zero. -/
theorem C10_first_active_geofence_only :
    ∀ (spatial : Geofence → Option Bool) (v : Bool) (lat lng : ℚ)
      (groups : List Group) (gr : Group) (rest : List Group) (g : Geofence),
      (v = true → lat ≠ 0 → lng ≠ 0 →
        add_device_position spatial v lat lng groups =
          (firstActiveGeofence groups).map (check_point_in_geofence spatial)) ∧
      (gr.geofences.find? (·.active) = some g →
        firstActiveGeofence (gr :: rest) = some g) ∧
      (gr.geofences.find? (·.active) = none →
        firstActiveGeofence (gr :: rest) = firstActiveGeofence rest) ∧
      (firstActiveGeofence groups = none ∨ v = false ∨ lat = 0 ∨ lng = 0 →
        add_device_position spatial v lat lng groups = none) := by
  intro spatial v lat lng groups gr rest g
  refine ⟨?_, ?_, ?_, ?_⟩
  · intro hv hlat hlng
    unfold add_device_position
    rw [if_pos ⟨hv, hlat, hlng⟩]
  · intro h
    unfold firstActiveGeofence
    simp [List.filterMap_cons, h]
  · intro h
    unfold firstActiveGeofence
    simp [List.filterMap_cons, h]
  · intro h
    unfold add_device_position
    split
    · rename_i hcond
      obtain ⟨hv, hlat, hlng⟩ := hcond
      rcases h with h | h | h | h
      · rw [h]; rfl
      · rw [hv] at h; cases h
      · exact absurd h hlat
      · exact absurd h hlng
    · rfl

theorem C10_witness :
    add_device_position (fun _ => some true) true (-33) (-70)
        [⟨[{ kind := .polygon, radius := none, active := false }]⟩,
         ⟨[{ kind := .circle, radius := some 50, active := true }]⟩,
         ⟨[{ kind := .polygon, radius := none, active := true }]⟩] =
      (firstActiveGeofence
          [⟨[{ kind := .polygon, radius := none, active := false }]⟩,
           ⟨[{ kind := .circle, radius := some 50, active := true }]⟩,
           ⟨[{ kind := .polygon, radius := none, active := true }]⟩]).map
        (check_point_in_geofence (fun _ => some true)) :=
  (C10_first_active_geofence_only (fun _ => some true) true (-33) (-70)
      _ ⟨[]⟩ [] { kind := .circle, radius := none, active := false }).1
    rfl (by norm_num) (by norm_num)

/-- C9 (amended): the table maps SF7 and SF8 to 222, SF9 to 115 and
SF10-SF12 to 51 bytes, and the lookup the code actually performs
(`AU915_PAYLOAD_LIMITS.get(sf, 51)`) silently returns the conservative
51-byte default for every identifier not in the table instead of failing
with `UnknownDataRate`. -/
theorem C9_budget_lookup :
    (AU915_PAYLOAD_LIMITS "SF7" = some 222 ∧ AU915_PAYLOAD_LIMITS "SF8" = some 222 ∧
      AU915_PAYLOAD_LIMITS "SF9" = some 115 ∧ AU915_PAYLOAD_LIMITS "SF10" = some 51 ∧
      AU915_PAYLOAD_LIMITS "SF11" = some 51 ∧ AU915_PAYLOAD_LIMITS "SF12" = some 51) ∧
    (∀ (sf : String) (B : ℕ), AU915_PAYLOAD_LIMITS sf = some B → maxPayloadFor sf = B) ∧
    (∀ sf : String, AU915_PAYLOAD_LIMITS sf = none → maxPayloadFor sf = 51) := by
  refine ⟨by decide, ?_, ?_⟩
  · intro sf B h
    unfold maxPayloadFor
    rw [h]
    rfl
  · intro sf h
    unfold maxPayloadFor
    rw [h]
    rfl

theorem C9_witness :
    AU915_PAYLOAD_LIMITS "SF13" = none ∧ maxPayloadFor "SF13" = 51 :=
  ⟨by decide, C9_budget_lookup.2.2 "SF13" (by decide)⟩

/-- C9 counterexample: for the unknown identifier "DR_FAST" the lookup used
by the code yields the 51-byte budget silently — the compression pipeline
runs and produces the same frame as under "SF10" — rather than failing with
`UnknownDataRate`. -/
theorem C9_silent_default_counterexample :
    AU915_PAYLOAD_LIMITS "DR_FAST" = none ∧ maxPayloadFor "DR_FAST" = 51 ∧
      create_compressed_polygon_payload [⟨-33, -70⟩, ⟨-33, -70⟩, ⟨-33, -70⟩]
          [116, 97, 103] "DR_FAST" =
        create_compressed_polygon_payload [⟨-33, -70⟩, ⟨-33, -70⟩, ⟨-33, -70⟩]
          [116, 97, 103] "SF10" := by
  refine ⟨by decide, by decide, ?_⟩
  unfold create_compressed_polygon_payload
  rfl

theorem finalSizeCheck_eq_ok (B : ℕ) (r : Except String (List Atom)) (p : List Atom)
    (h : finalSizeCheck B r = some p) : r = Except.ok p := by
  unfold finalSizeCheck at h
  split at h
  · simp at h
  · rename_i q
    split at h
    · simp at h
    · cases h
      rfl

theorem finalSizeCheck_le (B : ℕ) (r : Except String (List Atom)) (p : List Atom)
    (h : finalSizeCheck B r = some p) : frameSize p ≤ B := by
  unfold finalSizeCheck at h
  split at h
  · simp at h
  · rename_i q
    split at h
    · simp at h
    · rename_i hgt
      cases h
      omega

theorem compress_ok_head (B : ℕ) (coords : List Coord) (g : List ℕ) (p : List Atom)
    (h : compress_polygon_coordinates B coords g = Except.ok p) :
    p.head? = some (Atom.u8 2) := by
  simp only [compress_polygon_coordinates] at h
  split at h
  · simp at h
  · split at h
    · simp at h
    · split at h
      · cases h; rfl
      · split at h
        · cases h; rfl
        · simp at h

/-- C4: for every supported data rate, a frame actually handed off by
`send_geofence_downlink` never exceeds that rate's byte budget — the final
`len(payload) > max_payload` check returns `False` (no frame) otherwise. -/
theorem C4_budget_never_exceeded :
    ∀ (sf : String) (B : ℕ) (gin : GeofenceInput) (groupId : List ℕ) (p : List Atom),
      AU915_PAYLOAD_LIMITS sf = some B →
      send_geofence_downlink gin groupId sf = some p →
      frameSize p ≤ B := by
  intro sf B gin g p hB h
  have hmax : maxPayloadFor sf = B := by
    unfold maxPayloadFor
    rw [hB]
    rfl
  unfold send_geofence_downlink at h
  rw [hmax] at h
  exact finalSizeCheck_le B _ p h

theorem C4_witness :
    AU915_PAYLOAD_LIMITS "SF10" = some 51 ∧
      send_geofence_downlink (.circle (-33.4489) (-70.6693) 100) [97, 112, 105] "SF10"
        = some [Atom.u8 0, Atom.f32 (-33.4489), Atom.f32 (-70.6693), Atom.u16 100,
            Atom.u8 97, Atom.u8 112, Atom.u8 105] ∧
      frameSize [Atom.u8 0, Atom.f32 (-33.4489), Atom.f32 (-70.6693), Atom.u16 100,
          Atom.u8 97, Atom.u8 112, Atom.u8 105] ≤ 51 :=
  ⟨by decide, by decide,
    C4_budget_never_exceeded "SF10" 51 (.circle (-33.4489) (-70.6693) 100) [97, 112, 105]
      [Atom.u8 0, Atom.f32 (-33.4489), Atom.f32 (-70.6693), Atom.u16 100,
        Atom.u8 97, Atom.u8 112, Atom.u8 105] (by decide) (by decide)⟩

/-- C3: when `send_geofence_downlink` hands off a polygon frame, the frame is
the direct form (type byte 1) exactly when the direct encoding
`2 + 8n + |group_id|` fits the budget and the vertex count is at most 6, and
is the compressed form (type byte 2) whenever the direct form would not fit
or the count exceeds 6. -/
theorem C3_direct_vs_compressed :
    ∀ (coords : List Coord) (g : List ℕ) (sf : String) (p : List Atom),
      send_geofence_downlink (.polygon coords) g sf = some p →
      ((p.head? = some (Atom.u8 1)) ↔
        (2 + coords.length * 8 + g.length ≤ maxPayloadFor sf ∧ coords.length ≤ 6)) ∧
      (¬(2 + coords.length * 8 + g.length ≤ maxPayloadFor sf ∧ coords.length ≤ 6) →
        p.head? = some (Atom.u8 2)) := by
  intro coords g sf p h
  have h' := finalSizeCheck_eq_ok _ _ _ h
  simp only [buildGeofencePayload] at h'
  split at h'
  · simp at h'
  · split at h'
    · rename_i hc
      have hp : p.head? = some (Atom.u8 1) := by
        split at h'
        · unfold tagBytes15 at h'
          split at h'
          · simp only [Except.map] at h'
            cases h'
            rfl
          · simp [Except.map] at h'
        · cases h'
          rfl
      exact ⟨iff_of_true hp hc, fun hnc => absurd hc hnc⟩
    · rename_i hnc
      unfold create_compressed_polygon_payload at h'
      have hp2 : p.head? = some (Atom.u8 2) :=
        compress_ok_head (maxPayloadFor sf) coords g p h'
      refine ⟨⟨fun h1 => ?_, fun hc => absurd hc hnc⟩, fun _ => hp2⟩
      rw [hp2] at h1
      simp at h1

theorem C3_witness :
    send_geofence_downlink (.polygon (List.replicate 10 ⟨-33.45, -70.67⟩))
        [98, 97, 99, 107, 101, 110, 100] "SF10"
      = some ([Atom.u8 2, Atom.f32 (-33.45), Atom.f32 (-70.67), Atom.u8 8]
          ++ List.replicate 16 (Atom.i16 0)
          ++ [Atom.u8 98, Atom.u8 97, Atom.u8 99, Atom.u8 107, Atom.u8 101, Atom.u8 110,
              Atom.u8 100]) ∧
      ¬(2 + (List.replicate 10 (⟨-33.45, -70.67⟩ : Coord)).length * 8 +
          [98, 97, 99, 107, 101, 110, 100].length ≤ maxPayloadFor "SF10" ∧
        (List.replicate 10 (⟨-33.45, -70.67⟩ : Coord)).length ≤ 6) ∧
      ([Atom.u8 2, Atom.f32 (-33.45), Atom.f32 (-70.67), Atom.u8 8]
          ++ List.replicate 16 (Atom.i16 0)
          ++ [Atom.u8 98, Atom.u8 97, Atom.u8 99, Atom.u8 107, Atom.u8 101, Atom.u8 110,
              Atom.u8 100]).head? = some (Atom.u8 2) :=
  ⟨by decide, by decide,
    (C3_direct_vs_compressed (List.replicate 10 ⟨-33.45, -70.67⟩)
        [98, 97, 99, 107, 101, 110, 100] "SF10"
        ([Atom.u8 2, Atom.f32 (-33.45), Atom.f32 (-70.67), Atom.u8 8]
          ++ List.replicate 16 (Atom.i16 0)
          ++ [Atom.u8 98, Atom.u8 97, Atom.u8 99, Atom.u8 107, Atom.u8 101, Atom.u8 110,
              Atom.u8 100]) (by decide)).2 (by decide)⟩

theorem all_take_of_all {α : Type} (p : α → Bool) :
    ∀ (l : List α) (k : ℕ), l.all p = true → (l.take k).all p = true := by
  intro l
  induction l with
  | nil =>
      intro k _
      simp
  | cons a t ih =>
      intro k h
      cases k with
      | zero => simp
      | succ k =>
          simp only [List.all_cons, Bool.and_eq_true] at h
          simp only [List.take_succ_cons, List.all_cons, Bool.and_eq_true]
          exact ⟨h.1, ih k h.2⟩

/-- The compressor, on every input it accepts (in-Chile vertices, an ASCII
tag, a nonempty polygon and a budget of at least 13 + tag bytes), emits
exactly the claim-worded frame `compressedFrameSpec`. -/
theorem compress_eq_spec :
    ∀ (B : ℕ) (coords : List Coord) (g : List ℕ),
      coords.all chileOk = true →
      g.all (· < 128) = true →
      coords ≠ [] →
      13 + g.length ≤ B →
      compress_polygon_coordinates B coords g =
        Except.ok (compressedFrameSpec B coords g) := by
  intro B coords g hch ha hne hB
  have hlen : 0 < coords.length := List.length_pos.mpr hne
  have hD4 : 4 ≤ B - 9 - g.length := by omega
  have hD1 : 1 ≤ (B - 9 - g.length) / 4 := (Nat.one_le_div_iff (by norm_num)).mpr hD4
  set count := min (min coords.length ((B - 9 - g.length) / 4)) 10 with hcount
  have hcount1 : 1 ≤ count := le_min (le_min hlen hD1) (by norm_num)
  have hz : min (min (coords.length : ℤ) (Int.fdiv ((B : ℤ) - 9 - (g.length : ℤ)) 4)) 10
      = (count : ℤ) := by
    have h1 : (B : ℤ) - 9 - (g.length : ℤ) = ((B - 9 - g.length : ℕ) : ℤ) := by omega
    rw [h1]
    have h2 : Int.fdiv ((B - 9 - g.length : ℕ) : ℤ) 4 = (((B - 9 - g.length) / 4 : ℕ) : ℤ) :=
      (Int.ofNat_fdiv (B - 9 - g.length) 4).symm
    rw [h2, hcount]
    push_cast
    rfl
  simp only [compress_polygon_coordinates, compressedFrameSpec, hz, Int.toNat_natCast,
    ← hcount, hch]
  rw [if_neg (by simp), if_neg (by omega)]
  split
  · rename_i hcond
    rcases hcond with hg | hav
    · rw [hg]
      simp
    · have hzero : B - frameSize ([Atom.u8 2,
          Atom.f32 (calculate_reference_point (coords.take count)).lat,
          Atom.f32 (calculate_reference_point (coords.take count)).lng, Atom.u8 count]
            ++ (coords.take count).flatMap
                (offsetAtoms (calculate_reference_point (coords.take count)))) = 0 := by
        omega
      rw [hzero]
      simp
  · rename_i hcond
    push_neg at hcond
    obtain ⟨hg, hav⟩ := hcond
    split
    · rename_i hascii
      have htn : ((B : ℤ) - (frameSize ([Atom.u8 2,
          Atom.f32 (calculate_reference_point (coords.take count)).lat,
          Atom.f32 (calculate_reference_point (coords.take count)).lng, Atom.u8 count]
            ++ (coords.take count).flatMap
                (offsetAtoms (calculate_reference_point (coords.take count)))) : ℕ)).toNat
          = B - frameSize ([Atom.u8 2,
              Atom.f32 (calculate_reference_point (coords.take count)).lat,
              Atom.f32 (calculate_reference_point (coords.take count)).lng, Atom.u8 count]
                ++ (coords.take count).flatMap
                    (offsetAtoms (calculate_reference_point (coords.take count)))) := by
        omega
      rw [htn]
    · rename_i hascii
      exact absurd (all_take_of_all (· < 128) g _ ha) hascii

/-- C2: for every accepted polygon input (in-Chile vertices, ASCII tag,
nonempty polygon, budget of at least 13 + tag bytes) the compressed encoder
admits `count = min(input_count, floor((B - 9 - |g|) / 4), 10)` vertices,
takes the arithmetic-mean centroid of the first `count` vertices as the
reference, and emits `u8 type=2 | f32 ref_lat | f32 ref_lng | u8 count`
followed by the two clamped, rounded little-endian i16 offsets per admitted
vertex and the tag truncated to the remaining budget space — the frame
`compressedFrameSpec` worded from the claim. -/
theorem C2_compressed_frame_layout :
    ∀ (B : ℕ) (coords : List Coord) (g : List ℕ),
      coords.all chileOk = true →
      g.all (· < 128) = true →
      coords ≠ [] →
      13 + g.length ≤ B →
      compress_polygon_coordinates B coords g =
        Except.ok (compressedFrameSpec B coords g) :=
  compress_eq_spec

theorem C2_witness :
    ([⟨-33, -70⟩, ⟨-34, -71⟩, (⟨-33.5, -70.5⟩ : Coord)].all chileOk = true ∧
        [98, 107].all (· < 128) = true ∧
        [⟨-33, -70⟩, ⟨-34, -71⟩, (⟨-33.5, -70.5⟩ : Coord)] ≠ [] ∧
        13 + [98, 107].length ≤ 51) ∧
      compress_polygon_coordinates 51 [⟨-33, -70⟩, ⟨-34, -71⟩, ⟨-33.5, -70.5⟩] [98, 107] =
        Except.ok (compressedFrameSpec 51 [⟨-33, -70⟩, ⟨-34, -71⟩, ⟨-33.5, -70.5⟩] [98, 107]) :=
  ⟨⟨by decide, by decide, by decide, by decide⟩,
    C2_compressed_frame_layout 51 [⟨-33, -70⟩, ⟨-34, -71⟩, ⟨-33.5, -70.5⟩] [98, 107]
      (by decide) (by decide) (by decide) (by decide)⟩

/-- C8 (amended): when the vertex-count formula clips vertices, the encoder
only logs a warning; its returned value is the frame bytes alone, identical
to the encoding of the clipped prefix, so no `truncated_from` count or other
truncation report reaches the caller. -/
theorem C8_truncation_not_reported :
    ∀ (B : ℕ) (coords : List Coord) (g : List ℕ),
      coords.all chileOk = true →
      g.all (· < 128) = true →
      coords ≠ [] →
      13 + g.length ≤ B →
      compress_polygon_coordinates B coords g =
        compress_polygon_coordinates B
          (coords.take (min (min coords.length ((B - 9 - g.length) / 4)) 10)) g := by
  intro B coords g hch ha hne hB
  have hlen : 0 < coords.length := List.length_pos.mpr hne
  have hD1 : 1 ≤ (B - 9 - g.length) / 4 :=
    (Nat.one_le_div_iff (by norm_num)).mpr (by omega)
  set count := min (min coords.length ((B - 9 - g.length) / 4)) 10 with hcount
  have hcount1 : 1 ≤ count := le_min (le_min hlen hD1) (by norm_num)
  have hch' : (coords.take count).all chileOk = true := all_take_of_all chileOk coords count hch
  have hne' : coords.take count ≠ [] := by
    have hlt : (coords.take count).length = min count coords.length :=
      List.length_take count coords
    intro hnil
    rw [hnil] at hlt
    simp at hlt
    omega
  rw [compress_eq_spec B coords g hch ha hne hB,
    compress_eq_spec B (coords.take count) g hch' ha hne' hB]
  have hc' : min (min (coords.take count).length ((B - 9 - g.length) / 4)) 10 = count := by
    rw [List.length_take, hcount]
    omega
  simp only [compressedFrameSpec, hc', ← hcount, List.take_take, min_self]

theorem C8_witness :
    compress_polygon_coordinates 51 (List.replicate 11 (⟨-33, -70⟩ : Coord)) [107] =
      compress_polygon_coordinates 51
        ((List.replicate 11 (⟨-33, -70⟩ : Coord)).take
          (min (min (List.replicate 11 (⟨-33, -70⟩ : Coord)).length ((51 - 9 - [107].length) / 4))
            10))
        [107] :=
  C8_truncation_not_reported 51 (List.replicate 11 ⟨-33, -70⟩) [107]
    (by decide) (by decide) (by decide) (by decide)

/-- C8 counterexample: an 11-vertex polygon at budget 51 with tag "ab" is
clipped to 10 vertices, and the encoder returns exactly the same value — a
bare byte frame — as for the already-10-vertex prefix; no truncation report
of any kind is present in the result, contradicting the claim that the
caller is told about the clipping. -/
theorem C8_truncation_counterexample :
    (List.replicate 11 (⟨-33.45, -70.67⟩ : Coord)).length = 11 ∧
      compress_polygon_coordinates 51 (List.replicate 11 ⟨-33.45, -70.67⟩) [97, 98] =
        compress_polygon_coordinates 51 (List.replicate 10 ⟨-33.45, -70.67⟩) [97, 98] ∧
      List.replicate 10 (⟨-33.45, -70.67⟩ : Coord) =
        (List.replicate 11 (⟨-33.45, -70.67⟩ : Coord)).take 10 :=
  ⟨by decide, by decide, by decide⟩

end LoraGeo
